import Mathlib

/-!
Shallow embedding of the `mcp-sandbox` client core
(`src/mcp_sandbox/client/session.py`, `app.py`, `metrics.py`): the session
manager that launches tool backends, aggregates tool catalogs, routes tool
invocations, the chat retry wrapper, and the metrics collector.  Python
dicts that preserve insertion order are modelled as association lists,
subprocess/model side effects as explicit oracles, and mutation as state
passing.
-/

/-- JSON values, modelling the data model of Python's `json` module on the
subset this program exchanges: objects, arrays, strings, booleans, integer
numerals and null.  Floating-point numerals and `\u` escapes are outside
the model. -/
inductive JVal where
  | jnull : JVal
  | jbool : Bool → JVal
  | jnum : Int → JVal
  | jstr : String → JVal
  | jarr : List JVal → JVal
  | jobj : List (String × JVal) → JVal

mutual

/-- Decidable equality of JSON values (written by hand: `deriving` does not
handle the nested lists). -/
def JVal.decEq : (a b : JVal) → Decidable (a = b)
  | .jnull, .jnull => isTrue rfl
  | .jbool a, .jbool b =>
    if h : a = b then isTrue (by rw [h]) else isFalse (by intro hc; injection hc; contradiction)
  | .jnum a, .jnum b =>
    if h : a = b then isTrue (by rw [h]) else isFalse (by intro hc; injection hc; contradiction)
  | .jstr a, .jstr b =>
    if h : a = b then isTrue (by rw [h]) else isFalse (by intro hc; injection hc; contradiction)
  | .jarr xs, .jarr ys =>
    match JVal.decEqList xs ys with
    | isTrue h => isTrue (by rw [h])
    | isFalse h => isFalse (by intro hc; injection hc; contradiction)
  | .jobj xs, .jobj ys =>
    match JVal.decEqMems xs ys with
    | isTrue h => isTrue (by rw [h])
    | isFalse h => isFalse (by intro hc; injection hc; contradiction)
  | .jnull, .jbool _ => isFalse (fun h => JVal.noConfusion h)
  | .jnull, .jnum _ => isFalse (fun h => JVal.noConfusion h)
  | .jnull, .jstr _ => isFalse (fun h => JVal.noConfusion h)
  | .jnull, .jarr _ => isFalse (fun h => JVal.noConfusion h)
  | .jnull, .jobj _ => isFalse (fun h => JVal.noConfusion h)
  | .jbool _, .jnull => isFalse (fun h => JVal.noConfusion h)
  | .jbool _, .jnum _ => isFalse (fun h => JVal.noConfusion h)
  | .jbool _, .jstr _ => isFalse (fun h => JVal.noConfusion h)
  | .jbool _, .jarr _ => isFalse (fun h => JVal.noConfusion h)
  | .jbool _, .jobj _ => isFalse (fun h => JVal.noConfusion h)
  | .jnum _, .jnull => isFalse (fun h => JVal.noConfusion h)
  | .jnum _, .jbool _ => isFalse (fun h => JVal.noConfusion h)
  | .jnum _, .jstr _ => isFalse (fun h => JVal.noConfusion h)
  | .jnum _, .jarr _ => isFalse (fun h => JVal.noConfusion h)
  | .jnum _, .jobj _ => isFalse (fun h => JVal.noConfusion h)
  | .jstr _, .jnull => isFalse (fun h => JVal.noConfusion h)
  | .jstr _, .jbool _ => isFalse (fun h => JVal.noConfusion h)
  | .jstr _, .jnum _ => isFalse (fun h => JVal.noConfusion h)
  | .jstr _, .jarr _ => isFalse (fun h => JVal.noConfusion h)
  | .jstr _, .jobj _ => isFalse (fun h => JVal.noConfusion h)
  | .jarr _, .jnull => isFalse (fun h => JVal.noConfusion h)
  | .jarr _, .jbool _ => isFalse (fun h => JVal.noConfusion h)
  | .jarr _, .jnum _ => isFalse (fun h => JVal.noConfusion h)
  | .jarr _, .jstr _ => isFalse (fun h => JVal.noConfusion h)
  | .jarr _, .jobj _ => isFalse (fun h => JVal.noConfusion h)
  | .jobj _, .jnull => isFalse (fun h => JVal.noConfusion h)
  | .jobj _, .jbool _ => isFalse (fun h => JVal.noConfusion h)
  | .jobj _, .jnum _ => isFalse (fun h => JVal.noConfusion h)
  | .jobj _, .jstr _ => isFalse (fun h => JVal.noConfusion h)
  | .jobj _, .jarr _ => isFalse (fun h => JVal.noConfusion h)

/-- Decidable equality of JSON value lists. -/
def JVal.decEqList : (a b : List JVal) → Decidable (a = b)
  | [], [] => isTrue rfl
  | [], _ :: _ => isFalse (fun h => List.noConfusion h)
  | _ :: _, [] => isFalse (fun h => List.noConfusion h)
  | x :: xs, y :: ys =>
    match JVal.decEq x y, JVal.decEqList xs ys with
    | isTrue h1, isTrue h2 => isTrue (by rw [h1, h2])
    | isFalse h1, _ => isFalse (by intro hc; injection hc; contradiction)
    | isTrue _, isFalse h2 => isFalse (by intro hc; injection hc; contradiction)

/-- Decidable equality of JSON object member lists. -/
def JVal.decEqMems : (a b : List (String × JVal)) → Decidable (a = b)
  | [], [] => isTrue rfl
  | [], _ :: _ => isFalse (fun h => List.noConfusion h)
  | _ :: _, [] => isFalse (fun h => List.noConfusion h)
  | (k1, v1) :: xs, (k2, v2) :: ys =>
    if hk : k1 = k2 then
      match JVal.decEq v1 v2, JVal.decEqMems xs ys with
      | isTrue h1, isTrue h2 => isTrue (by rw [hk, h1, h2])
      | isFalse h1, _ =>
        isFalse (by intro hc; injection hc with hp _; exact h1 (congrArg Prod.snd hp))
      | isTrue _, isFalse h2 => isFalse (by intro hc; injection hc; contradiction)
    else
      isFalse (by intro hc; injection hc with hp _; exact hk (congrArg Prod.fst hp))

end

instance : DecidableEq JVal := JVal.decEq

namespace JVal

/-- Field lookup in a JSON object: `j["key"]` on a Python dict decoded by
`json.loads` (first binding wins; `json.loads` keeps the last duplicate key,
but no payload in scope repeats a key). -/
def lookup (j : JVal) (key : String) : Option JVal :=
  match j with
  | .jobj fields => fields.lookup key
  | _ => none

end JVal

/-- Whitespace accepted between JSON tokens by Python's `json` decoder. -/
def isJsonWs (c : Char) : Bool :=
  c = ' ' || c = '\t' || c = '\n' || c = '\r'

/-- Drop leading JSON whitespace. -/
def skipWs : List Char → List Char
  | [] => []
  | c :: cs => if isJsonWs c then skipWs cs else c :: cs

/-- One string-escape of the JSON grammar (after the backslash). -/
def escChar (e : Char) : Option Char :=
  if e = '"' then some '"'
  else if e = '\\' then some '\\'
  else if e = '/' then some '/'
  else if e = 'n' then some '\n'
  else if e = 't' then some '\t'
  else if e = 'r' then some '\r'
  else if e = 'b' then some (Char.ofNat 8)
  else if e = 'f' then some (Char.ofNat 12)
  else none

/-- The characters of a JSON string literal, after its opening quote:
returns the decoded characters and the input past the closing quote. -/
def parseStrChars : Nat → List Char → Option (List Char × List Char)
  | 0, _ => none
  | _, [] => none
  | fuel+1, c :: cs =>
    if c = '"' then some ([], cs)
    else if c = '\\' then
      match cs with
      | [] => none
      | e :: cs2 =>
        match escChar e with
        | none => none
        | some ch => (parseStrChars fuel cs2).map fun p => (ch :: p.1, p.2)
    else (parseStrChars fuel cs).map fun p => (c :: p.1, p.2)

/-- Leading decimal digits of the input. -/
def takeDigits : List Char → List Char × List Char
  | [] => ([], [])
  | c :: cs =>
    if c.isDigit then
      let p := takeDigits cs
      (c :: p.1, p.2)
    else ([], c :: cs)

/-- Numeric value of a digit string. -/
def digitsToNat : List Char → Nat → Nat
  | [], acc => acc
  | c :: cs, acc => digitsToNat cs (acc * 10 + (c.toNat - 48))

mutual

/-- Recursive-descent JSON parser, modelling Python's `json.loads` grammar on
the modelled subset: parses one value and returns the remaining input.
Integer literals reject redundant leading zeros as `json.loads` does; a
value continuing with `.`, `e` or `E` (a float) is outside the model and
fails. -/
def parseVal : Nat → List Char → Option (JVal × List Char)
  | 0, _ => none
  | fuel+1, input =>
    match skipWs input with
    | 'n' :: 'u' :: 'l' :: 'l' :: rest => some (JVal.jnull, rest)
    | 't' :: 'r' :: 'u' :: 'e' :: rest => some (JVal.jbool true, rest)
    | 'f' :: 'a' :: 'l' :: 's' :: 'e' :: rest => some (JVal.jbool false, rest)
    | '"' :: rest => (parseStrChars (fuel+1) rest).map fun p => (JVal.jstr (String.mk p.1), p.2)
    | '[' :: rest =>
      (match skipWs rest with
       | ']' :: rest2 => some (JVal.jarr [], rest2)
       | other => (parseItems fuel other).map fun p => (JVal.jarr p.1, p.2))
    | '{' :: rest =>
      (match skipWs rest with
       | '}' :: rest2 => some (JVal.jobj [], rest2)
       | other => (parseMembers fuel other).map fun p => (JVal.jobj p.1, p.2))
    | '-' :: rest =>
      (match parseIntDigits rest with
       | none => none
       | some (n, rest2) => some (JVal.jnum (-(n : Int)), rest2))
    | c :: rest =>
      if c.isDigit then
        match parseIntDigits (c :: rest) with
        | none => none
        | some (n, rest2) => some (JVal.jnum (n : Int), rest2)
      else none
    | [] => none

/-- Digits of a JSON integer literal: at least one digit, no redundant
leading zero, not followed by a fraction or exponent marker. -/
def parseIntDigits (input : List Char) : Option (Nat × List Char) :=
  match takeDigits input with
  | ([], _) => none
  | (d :: ds, rest) =>
    if d = '0' && ds ≠ [] then none
    else
      match rest with
      | c :: _ => if c = '.' || c = 'e' || c = 'E' then none else some (digitsToNat (d :: ds) 0, rest)
      | [] => some (digitsToNat (d :: ds) 0, rest)

/-- Comma-separated array items up to the closing bracket. -/
def parseItems : Nat → List Char → Option (List JVal × List Char)
  | 0, _ => none
  | fuel+1, input =>
    match parseVal fuel input with
    | none => none
    | some (v, rest) =>
      match skipWs rest with
      | ',' :: rest2 => (parseItems fuel rest2).map fun p => (v :: p.1, p.2)
      | ']' :: rest2 => some ([v], rest2)
      | _ => none

/-- Comma-separated `"key": value` members up to the closing brace. -/
def parseMembers : Nat → List Char → Option (List (String × JVal) × List Char)
  | 0, _ => none
  | fuel+1, input =>
    match skipWs input with
    | '"' :: rest =>
      (match parseStrChars (fuel+1) rest with
       | none => none
       | some (key, rest2) =>
         match skipWs rest2 with
         | ':' :: rest3 =>
           (match parseVal fuel rest3 with
            | none => none
            | some (v, rest4) =>
              match skipWs rest4 with
              | ',' :: rest5 => (parseMembers fuel rest5).map fun p => ((String.mk key, v) :: p.1, p.2)
              | '}' :: rest5 => some ([(String.mk key, v)], rest5)
              | _ => none)
         | _ => none)
    | _ => none

end

/-- Python's `json.loads` on the modelled subset: parse one value and demand
that only whitespace follows; `none` models a raised `JSONDecodeError`. -/
def json_loads (s : String) : Option JVal :=
  match parseVal (s.length + 1) s.toList with
  | none => none
  | some (v, rest) => if skipWs rest = [] then some v else none

example : json_loads "\x7b\"success\": true, \"result\": \"test\"\x7d"
    = some (JVal.jobj [("success", JVal.jbool true), ("result", JVal.jstr "test")]) := by
  decide

example : json_loads "plain text" = none := by decide

example : json_loads "[1, -2, null]" = some (JVal.jarr [JVal.jnum 1, JVal.jnum (-2), JVal.jnull]) := by
  decide

/-- `MCPServerConfig` (session.py): one backend descriptor loaded from the
configuration file.  Defaults mirror the dataclass defaults. -/
structure MCPServerConfig where
  name : String
  script_path : String
  enabled : Bool := true
  timeout : Nat := 30
  max_retries : Nat := 3
  health_check_interval : Nat := 60
  metadata : List (String × JVal) := []
deriving DecidableEq

/-- One advertised tool as returned by a backend's `list_tools` call
(`mcp.types.Tool` restricted to the three fields this program reads). -/
structure ToolDefinition where
  name : String
  description : String
  inputSchema : JVal
deriving DecidableEq

/-- One entry of `MCPSessionManager.server_sessions` (session.py line 116):
the per-backend dict `{session, stdio, tools, healthy, last_check}` with the
opaque channel handles (`session`, `stdio`) elided — the embedding reaches
the channel through an explicit call oracle instead. -/
structure SessionInfo where
  tools : List ToolDefinition
  healthy : Bool
  last_check : Nat
deriving DecidableEq

/-- The session registry `server_sessions`: a Python dict keyed by server
name, modelled as an association list in insertion (registration) order. -/
abbrev SessionRegistry := List (String × SessionInfo)

/-- The model-facing tool record built by `get_all_tools`
(session.py lines 148-152): the dict
`{"name": …, "description": …, "input_schema": …}`. -/
structure ToolSchema where
  name : String
  description : String
  input_schema : JVal
deriving DecidableEq

/-- The `tool_def` dict built for one tool (session.py lines 148-152). -/
def toolSchemaOf (t : ToolDefinition) : ToolSchema :=
  { name := t.name, description := t.description, input_schema := t.inputSchema }

/-- `MCPSessionManager.get_all_tools` (session.py lines 143-154): walk the
session registry in order, and for each session whose `healthy` flag is set
append its tools, flattened to the model-facing schema, to the result. -/
def get_all_tools : SessionRegistry → List ToolSchema
  | [] => []
  | (_, si) :: rest =>
    (if si.healthy then si.tools.map toolSchemaOf else []) ++ get_all_tools rest

/-- `MCPSessionManager.health_check_all` (session.py lines 133-141): for
every registered session set `healthy := true` and refresh `last_check` to
the current time.  The `try` body consists of two assignments and a debug
log and cannot raise, so the `except` branch never runs. -/
def health_check_all (now : Nat) : SessionRegistry → SessionRegistry
  | [] => []
  | (n, si) :: rest =>
    (n, { si with healthy := true, last_check := now }) :: health_check_all now rest

/-- `MCPSessionManager.get_healthy_server_count` (session.py lines 194-195). -/
def get_healthy_server_count (sessions : SessionRegistry) : Nat :=
  (sessions.filter fun p => p.2.healthy).length

/-- Outcome of launching one backend (session.py lines 87-122): spawning the
subprocess, opening the stdio channel, the `initialize` handshake and the
`list_tools` call, collapsed into one oracle answer — `ok` with the
advertised tools when every step succeeds, `fail` when any step raises. -/
inductive LaunchOutcome where
  | ok : List ToolDefinition → LaunchOutcome
  | fail : LaunchOutcome
deriving DecidableEq

/-- Whether the launch succeeded. -/
def LaunchOutcome.isOk : LaunchOutcome → Bool
  | .ok _ => true
  | .fail => false

/-- The advertised tools of a successful launch. -/
def LaunchOutcome.toolList : LaunchOutcome → List ToolDefinition
  | .ok ts => ts
  | .fail => []

/-- `MCPSessionManager.initialize_servers` (session.py lines 81-131): walk
the descriptor list in order; skip descriptors with `enabled = false`; on a
successful launch record a session `{tools, healthy := true, last_check :=
now}` under the descriptor's name; on a failed launch set that descriptor's
`enabled` flag to `false` and continue with the remaining descriptors.
Returns the session registry built and the descriptor list after its
in-place mutation. -/
def initialize_servers (launch : MCPServerConfig → LaunchOutcome) (now : Nat) :
    List MCPServerConfig → SessionRegistry × List MCPServerConfig
  | [] => ([], [])
  | c :: rest =>
    if c.enabled then
      match launch c with
      | .ok tools =>
        let r := initialize_servers launch now rest
        ((c.name, { tools := tools, healthy := true, last_check := now }) :: r.1, c :: r.2)
      | .fail =>
        let r := initialize_servers launch now rest
        (r.1, { c with enabled := false } :: r.2)
    else
      let r := initialize_servers launch now rest
      (r.1, c :: r.2)

/-- Outcome of one backend `session.call_tool(name, arguments)` call
(session.py lines 167-169): `raises msg` models a raised exception whose
text is `msg`; `returns texts` models a normal result whose `content` list
contributes the string `texts[i]` for each block (its `text` attribute, or
`str(content)` for a block without one). -/
inductive CallOutcome where
  | raises : String → CallOutcome
  | returns : List String → CallOutcome

/-- `MCPSessionManager.execute_tool` (session.py lines 156-192): scan the
session registry in registration order, skipping unhealthy sessions; at the
first healthy session advertising `tool_name`, forward the call.  A raised
backend exception becomes the error dict `{"error": "Tool execution failed:
…"}`.  A non-empty content list is concatenated to text and parsed with
`json.loads`: parsed data is returned as-is, unparsable text is wrapped as
`{"success": true, "result": text}`; an empty content list yields
`{"success": true, "result": "No content"}`.  When no healthy session
advertises the tool the not-found error dict is returned. -/
def execute_tool (call : String → String → JVal → CallOutcome)
    (tool_name : String) (tool_input : JVal) : SessionRegistry → JVal
  | [] => .jobj [("error", .jstr ("Tool " ++ tool_name ++ " not found on any healthy server"))]
  | (sname, si) :: rest =>
    if si.healthy && (si.tools.map ToolDefinition.name).contains tool_name then
      match call sname tool_name tool_input with
      | .raises msg => .jobj [("error", .jstr ("Tool execution failed: " ++ msg))]
      | .returns texts =>
        if texts.isEmpty then
          .jobj [("success", .jbool true), ("result", .jstr "No content")]
        else
          match json_loads (String.join texts) with
          | some v => v
          | none => .jobj [("success", .jbool true), ("result", .jstr (String.join texts))]
    else execute_tool call tool_name tool_input rest

/-- `RequestMetrics` dataclass (metrics.py lines 5-13).  Wall-clock instants
are opaque to the program; the embedding carries them as naturals.  The
`token_usage` field is never written by the client and is elided. -/
structure RequestMetrics where
  request_id : String
  start_time : Nat
  end_time : Option Nat := none
  success : Bool := false
  error_type : Option String := none
  tools_called : List String := []
deriving DecidableEq

/-- The numeric content of the summary dict built by
`MetricsCollector.get_summary` (metrics.py lines 27-43).
`success_rate_tenths` is the percentage printed by
`f"{(successful/total)*100:.1f}%"`, carried as tenths of a percent;
`avg_duration_seconds` is the exact rational the printed 2-decimal figure
rounds. -/
structure MetricsSummary where
  total_requests : Nat
  successful : Nat
  failed : Nat
  success_rate_tenths : Int
  avg_duration_seconds : ℚ
deriving DecidableEq

/-- `MetricsCollector.get_summary` (metrics.py lines 23-43): `none` models
the `{"message": "No metrics available"}` sentinel returned for an empty
log.  A metric contributes to the duration sum only when its `end_time` is
truthy (set and nonzero), matching `if m.end_time`; the sum is divided by
the total count. -/
def get_summary (metrics : List RequestMetrics) : Option MetricsSummary :=
  if metrics.isEmpty then none
  else
    let total := metrics.length
    let successful := (metrics.filter fun m => m.success).length
    let durSum : Int := (metrics.filterMap fun m =>
      match m.end_time with
      | some e => if e = 0 then none else some ((e : Int) - (m.start_time : Int))
      | none => none).sum
    some { total_requests := total
           successful := successful
           failed := total - successful
           success_rate_tenths := round (((successful : ℚ) * 1000) / (total : ℚ))
           avg_duration_seconds := (durSum : ℚ) / (total : ℚ) }

/-- One character of a JSON string literal as `json.dumps` writes it.  The
program's rendered payloads are ASCII without further control characters;
`ensure_ascii` escaping of other characters is outside the model. -/
def renderChar (c : Char) : String :=
  if c = '"' then "\\\""
  else if c = '\\' then "\\\\"
  else if c = '\n' then "\\n"
  else if c = '\t' then "\\t"
  else if c = '\r' then "\\r"
  else String.singleton c

/-- A JSON string literal as `json.dumps` writes it. -/
def renderStr (s : String) : String :=
  "\"" ++ String.join (s.toList.map renderChar) ++ "\""

mutual

/-- JSON serialization modelling Python's `json.dumps`/`json.dump` on the
modelled subset.  The embedding renders compactly; `json.dump(...,
indent=2)` (session.py line 73) and `json.dumps(..., indent=2)` (app.py
line 180) differ only in inter-token whitespace, which `json.loads`
ignores. -/
def renderJson : JVal → String
  | .jnull => "null"
  | .jbool true => "true"
  | .jbool false => "false"
  | .jnum n => toString n
  | .jstr s => renderStr s
  | .jarr xs => "[" ++ renderArr xs ++ "]"
  | .jobj ms => "\x7b" ++ renderObj ms ++ "\x7d"

/-- Comma-separated renderings of array items. -/
def renderArr : List JVal → String
  | [] => ""
  | [x] => renderJson x
  | x :: y :: rest => renderJson x ++ ", " ++ renderArr (y :: rest)

/-- Comma-separated renderings of object members. -/
def renderObj : List (String × JVal) → String
  | [] => ""
  | [(k, v)] => renderStr k ++ ": " ++ renderJson v
  | (k, v) :: m :: rest => renderStr k ++ ": " ++ renderJson v ++ ", " ++ renderObj (m :: rest)

end

/-- The default configuration document synthesized by
`MCPSessionManager._create_default_configuration` (session.py lines
54-70). -/
def default_config : JVal :=
  .jobj [
    ("servers", .jarr [
      .jobj [
        ("name", .jstr "sqlite-database"),
        ("script_path", .jstr "mcp_sandbox.server"),
        ("enabled", .jbool true),
        ("timeout", .jnum 30),
        ("max_retries", .jnum 3),
        ("health_check_interval", .jnum 60),
        ("metadata", .jobj [
          ("description", .jstr "SQLite database MCP server"),
          ("version", .jstr "1.0.0")])]]),
    ("log_level", .jstr "INFO")]

/-- Read one optional keyword argument: the dataclass default when the key
is absent, the decoded value when present with the modelled shape. -/
def optField {α : Type} (fields : List (String × JVal)) (key : String)
    (dflt : α) (read : JVal → Option α) : Option α :=
  match fields.lookup key with
  | none => some dflt
  | some v => read v

/-- `MCPServerConfig(**server)` (session.py lines 40-42 and 75-77): build a
descriptor from a decoded JSON object by keyword arguments.  `none` models
a raised `TypeError`: a non-object entry, an unknown key, a missing
required key, or a value outside the shapes the dataclass documents (the
dataclass itself does not check value types at runtime, but every
configuration this program writes or documents is well-typed). -/
def configFromJson (j : JVal) : Option MCPServerConfig :=
  match j with
  | .jobj fields =>
    if fields.all (fun kv => ["name", "script_path", "enabled", "timeout",
        "max_retries", "health_check_interval", "metadata"].contains kv.1) then
      match fields.lookup "name", fields.lookup "script_path" with
      | some (.jstr n), some (.jstr sp) => do
        let enabled ← optField fields "enabled" true fun v =>
          match v with | .jbool b => some b | _ => none
        let timeout ← optField fields "timeout" 30 fun v =>
          match v with | .jnum (Int.ofNat k) => some k | _ => none
        let max_retries ← optField fields "max_retries" 3 fun v =>
          match v with | .jnum (Int.ofNat k) => some k | _ => none
        let health_check_interval ← optField fields "health_check_interval" 60 fun v =>
          match v with | .jnum (Int.ofNat k) => some k | _ => none
        let metadata ← optField fields "metadata" [] fun v =>
          match v with | .jobj ms => some ms | _ => none
        some { name := n, script_path := sp, enabled := enabled, timeout := timeout,
               max_retries := max_retries, health_check_interval := health_check_interval,
               metadata := metadata }
      | _, _ => none
    else none
  | _ => none

/-- `load_configuration` on an existing configuration file (session.py
lines 36-43): decode the file's text with `json.load`, take the document's
`servers` list (`config_data.get("servers", [])`), and build one
`MCPServerConfig` per entry.  `none` models a raised error: an unparsable
file, a non-list `servers` value, or a bad entry. -/
def load_configuration_text (text : String) : Option (List MCPServerConfig) := do
  let data ← json_loads text
  match data.lookup "servers" with
  | some (.jarr xs) => xs.mapM configFromJson
  | none => some []
  | _ => none

/-- `_create_default_configuration` (session.py lines 48-79): persist the
default configuration document as JSON text and set `server_configs` to the
descriptors built from that same document's `servers` list.  Returns (the
persisted text, the synthesized descriptor list). -/
def create_default_configuration : String × Option (List MCPServerConfig) :=
  (renderJson default_config,
   match default_config.lookup "servers" with
   | some (.jarr xs) => xs.mapM configFromJson
   | _ => none)

/-- One content block of a model response (app.py lines 161-165): a text
block, or a tool-use block with its call id, tool name and argument
object. -/
inductive RespBlock where
  | textBlock : String → RespBlock
  | toolUse : String → String → JVal → RespBlock
deriving DecidableEq

/-- The content of one `conversation_history` turn (app.py lines 130, 188-191,
200-208): the user's message string, a model response's content blocks, or
the `tool_result` list (each result keyed by its `tool_use_id` and carrying
the rendered result text). -/
inductive TurnContent where
  | text : String → TurnContent
  | blocks : List RespBlock → TurnContent
  | toolResults : List (String × String) → TurnContent
deriving DecidableEq

/-- One turn of `conversation_history`: the `{"role": …, "content": …}`
dict. -/
structure Turn where
  role : String
  content : TurnContent
deriving DecidableEq

/-- A model response as `_execute_chat` reads it: its `stop_reason` and its
content blocks. -/
structure ModelResponse where
  stop_reason : String
  content : List RespBlock
deriving DecidableEq

/-- Outcome of one `anthropic_client.messages.create` call (app.py lines
149-155 and 193-198): a response, or one of the three exception classes the
retry loop distinguishes (`APITimeoutError`, `RateLimitError`, anything
else with its type name and text). -/
inductive ModelResult where
  | resp : ModelResponse → ModelResult
  | timeoutExc : ModelResult
  | rateLimitExc : ModelResult
  | otherExc : String → String → ModelResult

/-- An exception escaping `_execute_chat` into the retry loop's handlers. -/
inductive ChatExc where
  | timeout : ChatExc
  | rateLimit : ChatExc
  | other : String → String → ChatExc
deriving DecidableEq

/-- One `messages.create` invocation as the embedding records it: the
history passed, and the tool catalog passed (`none` for the summarization
call, which passes no tools). -/
abbrev ModelCall := List Turn × Option (List ToolSchema)

/-- `response.content[0].text` (app.py lines 204, 209): the text of the
first content block; a raised `IndexError` (empty content) or
`AttributeError` (a block without `text`) lands in the retry loop's generic
handler. -/
def firstText : List RespBlock → Except ChatExc String
  | [] => .error (.other "IndexError" "list index out of range")
  | .textBlock t :: _ => .ok t
  | .toolUse _ _ _ :: _ => .error (.other "AttributeError" "text")

/-- What one `_execute_chat` call produced: its return value or escaped
exception, the conversation history after the call (the in-place
`conversation_history` mutations persist even when an exception escapes),
and the `messages.create` invocations made. -/
structure ExecOutcome where
  result : Except ChatExc String
  history : List Turn
  model_calls : List ModelCall
deriving Inhabited

/-- `MCPClient._execute_chat` (app.py lines 129-209): append the user
message to the history, aggregate the tool catalog, and short-circuit with
the fixed diagnostic text when the catalog is empty.  Otherwise call the
model with the full history and the catalog; on a `tool_use` stop reason,
route every tool-use block through `execute_tool`, append the assistant
turn and a tool-result turn, and call the model again with no tools; append
the final assistant turn and return its first block's text.  The model and
backend calls are oracles. -/
def exec_chat (model : List Turn → Option (List ToolSchema) → ModelResult)
    (call : String → String → JVal → CallOutcome)
    (sessions : SessionRegistry) (user_message : String) (history0 : List Turn) :
    ExecOutcome :=
  let history := history0 ++ [{ role := "user", content := .text user_message }]
  let all_tools := get_all_tools sessions
  if all_tools.isEmpty then
    { result := .ok "❌ No MCP tools currently available. Please check server status."
      history := history
      model_calls := [] }
  else
    match model history (some all_tools) with
    | .timeoutExc =>
      { result := .error .timeout, history := history,
        model_calls := [(history, some all_tools)] }
    | .rateLimitExc =>
      { result := .error .rateLimit, history := history,
        model_calls := [(history, some all_tools)] }
    | .otherExc ty msg =>
      { result := .error (.other ty msg), history := history,
        model_calls := [(history, some all_tools)] }
    | .resp r =>
      if r.stop_reason = "tool_use" then
        let tool_results := r.content.filterMap fun b =>
          match b with
          | .toolUse id name input =>
            some (id, renderJson (execute_tool call name input sessions))
          | .textBlock _ => none
        let history2 := history ++ [{ role := "assistant", content := .blocks r.content },
                                    { role := "user", content := .toolResults tool_results }]
        match model history2 none with
        | .timeoutExc =>
          { result := .error .timeout, history := history2,
            model_calls := [(history, some all_tools), (history2, none)] }
        | .rateLimitExc =>
          { result := .error .rateLimit, history := history2,
            model_calls := [(history, some all_tools), (history2, none)] }
        | .otherExc ty msg =>
          { result := .error (.other ty msg), history := history2,
            model_calls := [(history, some all_tools), (history2, none)] }
        | .resp r2 =>
          { result := firstText r2.content
            history := history2 ++ [{ role := "assistant", content := .blocks r2.content }]
            model_calls := [(history, some all_tools), (history2, none)] }
      else
        { result := firstText r.content
          history := history ++ [{ role := "assistant", content := .blocks r.content }]
          model_calls := [(history, some all_tools)] }

/-- Everything one `chat_with_claude` call produced: the returned string
(`none` models Python's implicit `None` when the loop body never runs), the
history after the call, the metrics appended to the collector's log, the
backoff sleeps performed in order, and the `messages.create` invocations
made. -/
structure ChatOutcome where
  response : Option String
  history : List Turn
  metrics_added : List RequestMetrics
  sleeps : List Nat
  model_calls : List ModelCall
deriving Inhabited

/-- The retry loop of `MCPClient.chat_with_claude` (app.py lines 87-127),
one recursive step per `for attempt in range(max_retries)` iteration:
`attempt` is the 0-based iteration index, `remaining` counts the iterations
left after this one (`attempt` is the last iteration exactly when
`remaining = 0`, matching `attempt == max_retries - 1`).  A successful
`_execute_chat` finalizes a success metric and returns.  A timeout on the
last attempt finalizes a `"timeout"` metric and returns the exhaustion
text; earlier timeouts sleep `2**attempt` and retry.  A rate limit on the
last attempt finalizes a `"rate_limit"` metric and returns the rate-limit
text; earlier ones sleep `5*(attempt+1)` and retry.  Any other exception
finalizes a metric with its type name and returns the error-prefixed text
at once.  `clock` gives the wall-clock instant observed when iteration
`attempt` finalizes a metric. -/
def chat_attempts (model : List Turn → Option (List ToolSchema) → ModelResult)
    (call : String → String → JVal → CallOutcome)
    (sessions : SessionRegistry) (user_message : String)
    (request_id : String) (start_time : Nat) (clock : Nat → Nat)
    (max_retries : Nat) : Nat → Nat → List Turn → ChatOutcome
  | _, 0, history =>
    { response := none, history := history, metrics_added := [], sleeps := [],
      model_calls := [] }
  | attempt, remaining + 1, history =>
    let e := exec_chat model call sessions user_message history
    match e.result with
    | .ok resp =>
      { response := some resp, history := e.history
        metrics_added := [{ request_id := request_id, start_time := start_time,
                            end_time := some (clock attempt), success := true }]
        sleeps := [], model_calls := e.model_calls }
    | .error .timeout =>
      if remaining = 0 then
        { response := some ("❌ Request timed out after " ++ toString max_retries ++ " attempts")
          history := e.history
          metrics_added := [{ request_id := request_id, start_time := start_time,
                              end_time := some (clock attempt), success := false,
                              error_type := some "timeout" }]
          sleeps := [], model_calls := e.model_calls }
      else
        let k := chat_attempts model call sessions user_message request_id start_time
          clock max_retries (attempt + 1) remaining e.history
        { response := k.response, history := k.history, metrics_added := k.metrics_added
          sleeps := 2 ^ attempt :: k.sleeps, model_calls := e.model_calls ++ k.model_calls }
    | .error .rateLimit =>
      if remaining = 0 then
        { response := some "❌ Rate limit exceeded. Please try again later."
          history := e.history
          metrics_added := [{ request_id := request_id, start_time := start_time,
                              end_time := some (clock attempt), success := false,
                              error_type := some "rate_limit" }]
          sleeps := [], model_calls := e.model_calls }
      else
        let k := chat_attempts model call sessions user_message request_id start_time
          clock max_retries (attempt + 1) remaining e.history
        { response := k.response, history := k.history, metrics_added := k.metrics_added
          sleeps := 5 * (attempt + 1) :: k.sleeps, model_calls := e.model_calls ++ k.model_calls }
    | .error (.other ty msg) =>
      { response := some ("❌ Error: " ++ msg), history := e.history
        metrics_added := [{ request_id := request_id, start_time := start_time,
                            end_time := some (clock attempt), success := false,
                            error_type := some ty }]
        sleeps := [], model_calls := e.model_calls }

/-- `MCPClient.chat_with_claude` (app.py lines 81-127): run the retry loop
from attempt 0 with `max_retries` iterations available (the Python default
is 3). -/
def chat_with_claude (model : List Turn → Option (List ToolSchema) → ModelResult)
    (call : String → String → JVal → CallOutcome)
    (sessions : SessionRegistry) (user_message : String)
    (request_id : String) (start_time : Nat) (clock : Nat → Nat)
    (history : List Turn) (max_retries : Nat := 3) : ChatOutcome :=
  chat_attempts model call sessions user_message request_id start_time clock
    max_retries 0 max_retries history

/-- Claim C9: `health_check_all` unconditionally sets `healthy = true` and
refreshes `last_check` for every session in the registry — it performs no
backend liveness probe (the embedded function is total and case-free, as
the `try` body cannot raise), so after a single pass every session,
including one previously marked unhealthy, is healthy with the pass's
timestamp, and the registry's names and tool lists are untouched. -/
theorem health_check_all_unconditionally_healthy (now : Nat) (sessions : SessionRegistry) :
    (∀ q ∈ health_check_all now sessions, q.2.healthy = true ∧ q.2.last_check = now)
    ∧ (health_check_all now sessions).map (fun q => (q.1, q.2.tools))
        = sessions.map (fun p => (p.1, p.2.tools)) := by
  induction sessions with
  | nil => simp [health_check_all]
  | cons p rest ih =>
    obtain ⟨n, si⟩ := p
    obtain ⟨ih1, ih2⟩ := ih
    refine ⟨?_, ?_⟩
    · intro q hq
      simp only [health_check_all, List.mem_cons] at hq
      rcases hq with hq | hq
      · subst hq; simp
      · exact ih1 q hq
    · simpa [health_check_all] using ih2

/-- Claim C2: `get_all_tools` returns exactly the tools of healthy sessions:
it equals the registration-order flattening of the healthy sessions' tool
lists into `{name, description, input_schema}` records, it is unchanged
when the unhealthy sessions are dropped (so no unhealthy session
contributes anything), and every tool of every healthy session appears in
it. -/
theorem get_all_tools_exactly_healthy (sessions : SessionRegistry) :
    get_all_tools sessions
      = (sessions.filter fun p => p.2.healthy).flatMap (fun p => p.2.tools.map toolSchemaOf)
    ∧ get_all_tools sessions = get_all_tools (sessions.filter fun p => p.2.healthy)
    ∧ (∀ p ∈ sessions, p.2.healthy = true →
        ∀ t ∈ p.2.tools, toolSchemaOf t ∈ get_all_tools sessions) := by
  have hchar : ∀ l : SessionRegistry,
      get_all_tools l = (l.filter fun p => p.2.healthy).flatMap (fun p => p.2.tools.map toolSchemaOf) := by
    intro l
    induction l with
    | nil => simp [get_all_tools]
    | cons p rest ih =>
      obtain ⟨n, si⟩ := p
      by_cases h : si.healthy
      · simp [get_all_tools, h, List.filter_cons, ih]
      · simp [get_all_tools, h, List.filter_cons, ih]
  refine ⟨hchar sessions, ?_, ?_⟩
  · rw [hchar sessions, hchar (sessions.filter fun p => p.2.healthy), List.filter_filter]
    simp
  · intro p hp hhealthy t ht
    rw [hchar sessions]
    rw [List.mem_flatMap]
    exact ⟨p, List.mem_filter.mpr ⟨hp, by simp [hhealthy]⟩, List.mem_map.mpr ⟨t, ht, rfl⟩⟩

/-- The session registry built by `initialize_servers`: one session, in
descriptor order, for exactly the enabled descriptors whose launch
succeeded, each with the advertised tools, `healthy = true` and the pass's
timestamp. -/
theorem initialize_servers_registry (launch : MCPServerConfig → LaunchOutcome) (now : Nat)
    (configs : List MCPServerConfig) :
    (initialize_servers launch now configs).1
      = (configs.filter fun c => c.enabled && (launch c).isOk).map
          (fun c => (c.name,
            { tools := (launch c).toolList, healthy := true, last_check := now })) := by
  induction configs with
  | nil => simp [initialize_servers]
  | cons c rest ih =>
    cases hc : c.enabled with
    | true =>
      cases hl : launch c with
      | ok ts =>
        simp [initialize_servers, hc, hl, List.filter_cons, LaunchOutcome.isOk,
          LaunchOutcome.toolList, ih]
      | fail =>
        simp [initialize_servers, hc, hl, List.filter_cons, LaunchOutcome.isOk, ih]
    | false =>
      simp [initialize_servers, hc, List.filter_cons, ih]

/-- The descriptor list after `initialize_servers`: exactly the enabled
descriptors whose launch failed have `enabled` forced to `false`; every
other descriptor is returned unchanged, so one failure never stops the
remaining descriptors from being processed. -/
theorem initialize_servers_disables_only_failures (launch : MCPServerConfig → LaunchOutcome)
    (now : Nat) (configs : List MCPServerConfig) :
    (initialize_servers launch now configs).2
      = configs.map fun c =>
          if c.enabled && !(launch c).isOk then { c with enabled := false } else c := by
  induction configs with
  | nil => simp [initialize_servers]
  | cons c rest ih =>
    cases hc : c.enabled with
    | true =>
      cases hl : launch c with
      | ok ts => simp [initialize_servers, hc, hl, LaunchOutcome.isOk, ih]
      | fail => simp [initialize_servers, hc, hl, LaunchOutcome.isOk, ih]
    | false =>
      simp [initialize_servers, hc, ih]

/-- Claim C1: `initialize_servers` creates a session only for descriptors
that were enabled and whose launch (spawn, handshake, tool fetch) succeeded;
each created session starts `healthy = true`; the number of sessions never
exceeds the number of enabled descriptors; and a launch failure marks only
that descriptor disabled while the remaining descriptors are still
processed. -/
theorem launchAll_only_enabled_successes (launch : MCPServerConfig → LaunchOutcome)
    (now : Nat) (configs : List MCPServerConfig) :
    ((initialize_servers launch now configs).1
      = (configs.filter fun c => c.enabled && (launch c).isOk).map
          (fun c => (c.name,
            { tools := (launch c).toolList, healthy := true, last_check := now })))
    ∧ (∀ p ∈ (initialize_servers launch now configs).1, p.2.healthy = true)
    ∧ (initialize_servers launch now configs).1.length
        ≤ (configs.filter fun c => c.enabled).length
    ∧ ((initialize_servers launch now configs).2
      = configs.map fun c =>
          if c.enabled && !(launch c).isOk then { c with enabled := false } else c) := by
  refine ⟨initialize_servers_registry launch now configs, ?_, ?_,
    initialize_servers_disables_only_failures launch now configs⟩
  · intro p hp
    rw [initialize_servers_registry launch now configs] at hp
    obtain ⟨c, _, hc⟩ := List.mem_map.mp hp
    rw [← hc]
  · rw [initialize_servers_registry launch now configs, List.length_map]
    exact (List.monotone_filter_right configs (fun c hc => by
      simpa using (Bool.and_elim_left (by simpa using hc)))).length_le

set_option maxRecDepth 10000

/-- Claim C7: `get_summary` on an empty log returns the "no data" sentinel
and on any non-empty log does not; it is a pure function of the log (a
plain function of the `metrics` list in the embedding — no other input and
no cache); and a log of exactly 3 metrics with 2 successes and 1 failure
reports a failed count of 1 and a success rate of 66.7% (667 tenths of a
percent, the figure `f"{(2/3)*100:.1f}%"` prints). -/
theorem get_summary_sentinel_and_success_rate :
    get_summary [] = none
    ∧ (∀ l : List RequestMetrics, l ≠ [] → (get_summary l).isSome = true)
    ∧ (∀ m1 m2 m3 : RequestMetrics, m1.success = true → m2.success = true →
        m3.success = false →
        (get_summary [m1, m2, m3]).map (fun s => (s.failed, s.success_rate_tenths))
          = some (1, 667)) := by
  refine ⟨by simp [get_summary], ?_, ?_⟩
  · intro l hl
    simp [get_summary, hl]
  · intro m1 m2 m3 h1 h2 h3
    simp only [get_summary, List.isEmpty_cons, Bool.false_eq_true, if_false,
      List.filter, h1, h2, h3, Option.map_some]
    norm_num [round_eq, Int.floor_eq_iff]

/-- The one default descriptor `_create_default_configuration` synthesizes:
the bundled database backend, launched as the `mcp_sandbox.server` module. -/
def defaultDescriptor : MCPServerConfig :=
  { name := "sqlite-database", script_path := "mcp_sandbox.server", enabled := true,
    timeout := 30, max_retries := 3, health_check_interval := 60,
    metadata := [("description", JVal.jstr "SQLite database MCP server"),
                 ("version", JVal.jstr "1.0.0")] }

/-- Claim C8: with no configuration source present, the loader synthesizes
exactly one default descriptor — the bundled database tool backend
(`mcp_sandbox.server`) — persists the document, and reloading the persisted
document parses back into a descriptor list equal to the synthesized
one. -/
theorem default_configuration_roundtrip :
    create_default_configuration.2 = some [defaultDescriptor]
    ∧ load_configuration_text create_default_configuration.1 = some [defaultDescriptor]
    ∧ defaultDescriptor.script_path = "mcp_sandbox.server" := by
  exact ⟨by decide, by decide, rfl⟩

/-- `execute_tool` skips a session that is unhealthy or does not advertise
the requested tool. -/
theorem execute_tool_skip_of_no_match (call : String → String → JVal → CallOutcome)
    (tool_name : String) (input : JVal) (sname : String) (si : SessionInfo)
    (rest : SessionRegistry)
    (h : si.healthy = true → tool_name ∉ si.tools.map ToolDefinition.name) :
    execute_tool call tool_name input ((sname, si) :: rest)
      = execute_tool call tool_name input rest := by
  have hcond : (si.healthy && (si.tools.map ToolDefinition.name).contains tool_name) = false := by
    cases hh : si.healthy with
    | false => simp
    | true => simpa using h hh
  simp only [execute_tool, hcond]
  simp

/-- `execute_tool` returns the not-found error dict when no healthy session
of the registry advertises the tool. -/
theorem execute_tool_no_advertiser (call : String → String → JVal → CallOutcome)
    (tool_name : String) (input : JVal) (sessions : SessionRegistry)
    (h : ∀ p ∈ sessions, p.2.healthy = true → tool_name ∉ p.2.tools.map ToolDefinition.name) :
    execute_tool call tool_name input sessions
      = .jobj [("error", .jstr ("Tool " ++ tool_name ++ " not found on any healthy server"))] := by
  induction sessions with
  | nil => simp [execute_tool]
  | cons p rest ih =>
    obtain ⟨sname, si⟩ := p
    rw [execute_tool_skip_of_no_match call tool_name input sname si rest
      (h (sname, si) (List.mem_cons_self _ _))]
    exact ih fun q hq => h q (List.mem_cons_of_mem _ hq)

/-- A prefix of sessions none of which is a healthy advertiser of the tool
is scanned past without effect. -/
theorem execute_tool_append_skip (call : String → String → JVal → CallOutcome)
    (tool_name : String) (input : JVal) (pre rest : SessionRegistry)
    (h : ∀ p ∈ pre, p.2.healthy = true → tool_name ∉ p.2.tools.map ToolDefinition.name) :
    execute_tool call tool_name input (pre ++ rest)
      = execute_tool call tool_name input rest := by
  induction pre with
  | nil => rfl
  | cons p pre ih =>
    obtain ⟨sname, si⟩ := p
    rw [List.cons_append,
      execute_tool_skip_of_no_match call tool_name input sname si _
        (h (sname, si) (List.mem_cons_self _ _))]
    exact ih fun q hq => h q (List.mem_cons_of_mem _ hq)

/-- At the head of the registry, a healthy session advertising the tool
receives the forwarded call, and the payload handling of session.py lines
165-190 applies. -/
theorem execute_tool_head_match (call : String → String → JVal → CallOutcome)
    (tool_name : String) (input : JVal) (sname : String) (si : SessionInfo)
    (rest : SessionRegistry) (hh : si.healthy = true)
    (ht : tool_name ∈ si.tools.map ToolDefinition.name) :
    execute_tool call tool_name input ((sname, si) :: rest)
      = match call sname tool_name input with
        | .raises msg => .jobj [("error", .jstr ("Tool execution failed: " ++ msg))]
        | .returns texts =>
          if texts.isEmpty then
            .jobj [("success", .jbool true), ("result", .jstr "No content")]
          else
            match json_loads (String.join texts) with
            | some v => v
            | none => .jobj [("success", .jbool true), ("result", .jstr (String.join texts))] := by
  have hcond : (si.healthy && (si.tools.map ToolDefinition.name).contains tool_name) = true := by
    rw [Bool.and_eq_true]
    exact ⟨hh, by simpa using ht⟩
  simp only [execute_tool]
  rw [if_pos hcond]

/-- Claim C3: for a tool name no healthy session advertises — whatever the
registry state — `execute_tool` returns the `ToolNotFound` error dict; and
when the first healthy session advertising the tool raises during the
backend call, `execute_tool` returns the `ToolExecutionError` dict carrying
the backend's error text as an ordinary result value (the embedded router
is a total function, so no exception propagates to the caller). -/
theorem invoke_not_found_and_backend_error (call : String → String → JVal → CallOutcome)
    (tool_name : String) (input : JVal) (sessions pre post : SessionRegistry)
    (sname : String) (si : SessionInfo) (msg : String) :
    ((∀ p ∈ sessions, p.2.healthy = true → tool_name ∉ p.2.tools.map ToolDefinition.name) →
      execute_tool call tool_name input sessions
        = .jobj [("error", .jstr ("Tool " ++ tool_name ++ " not found on any healthy server"))])
    ∧ ((∀ p ∈ pre, p.2.healthy = true → tool_name ∉ p.2.tools.map ToolDefinition.name) →
        si.healthy = true → tool_name ∈ si.tools.map ToolDefinition.name →
        call sname tool_name input = .raises msg →
        execute_tool call tool_name input (pre ++ (sname, si) :: post)
          = .jobj [("error", .jstr ("Tool execution failed: " ++ msg))]) := by
  constructor
  · exact fun h => execute_tool_no_advertiser call tool_name input sessions h
  · intro hpre hh ht hcall
    rw [execute_tool_append_skip call tool_name input pre _ hpre,
      execute_tool_head_match call tool_name input sname si post hh ht, hcall]

/-- Witness for C3 at a concrete registry: one healthy session advertising
only `"t"`; the lookup of `"ghost"` reports not-found, and a backend raise
on `"t"` is returned as the error dict. -/
theorem invoke_not_found_and_backend_error_witness :
    execute_tool (fun _ _ _ => CallOutcome.raises "boom") "ghost" JVal.jnull
        [("s1", { tools := [{ name := "t", description := "d", inputSchema := JVal.jnull }],
                  healthy := true, last_check := 0 })]
      = JVal.jobj [("error", JVal.jstr "Tool ghost not found on any healthy server")]
    ∧ execute_tool (fun _ _ _ => CallOutcome.raises "boom") "t" JVal.jnull
        [("s1", { tools := [{ name := "t", description := "d", inputSchema := JVal.jnull }],
                  healthy := true, last_check := 0 })]
      = JVal.jobj [("error", JVal.jstr "Tool execution failed: boom")] := by
  constructor
  · exact (invoke_not_found_and_backend_error (fun _ _ _ => CallOutcome.raises "boom")
      "ghost" JVal.jnull
      [("s1", { tools := [{ name := "t", description := "d", inputSchema := JVal.jnull }],
                healthy := true, last_check := 0 })]
      [] [] "" { tools := [], healthy := false, last_check := 0 } "").1 (by decide)
  · exact (invoke_not_found_and_backend_error (fun _ _ _ => CallOutcome.raises "boom")
      "t" JVal.jnull [] []
      [("s1", { tools := [{ name := "t", description := "d", inputSchema := JVal.jnull }],
                healthy := true, last_check := 0 })]
      "s1" { tools := [{ name := "t", description := "d", inputSchema := JVal.jnull }],
             healthy := true, last_check := 0 } "boom").2
      (by simp) rfl (by decide) rfl

/-- Claim C4: when the call reaches the first healthy session advertising
the tool and the backend returns a non-empty text payload, the text is
parsed as structured data and returned as-is when parsing succeeds, and
wrapped as `{"success": true, "result": text}` when parsing fails; and the
text `{"success": true, "result": "test"}` parses to the structure whose
`result` field is `"test"`. -/
theorem invoke_parses_or_wraps_payload (call : String → String → JVal → CallOutcome)
    (tool_name : String) (input : JVal) (pre post : SessionRegistry)
    (sname : String) (si : SessionInfo) (texts : List String) (v : JVal) :
    ((∀ p ∈ pre, p.2.healthy = true → tool_name ∉ p.2.tools.map ToolDefinition.name) →
        si.healthy = true → tool_name ∈ si.tools.map ToolDefinition.name →
        call sname tool_name input = .returns texts → texts.isEmpty = false →
        (json_loads (String.join texts) = some v →
          execute_tool call tool_name input (pre ++ (sname, si) :: post) = v)
        ∧ (json_loads (String.join texts) = none →
          execute_tool call tool_name input (pre ++ (sname, si) :: post)
            = .jobj [("success", .jbool true), ("result", .jstr (String.join texts))]))
    ∧ json_loads "\x7b\"success\": true, \"result\": \"test\"\x7d"
        = some (JVal.jobj [("success", JVal.jbool true), ("result", JVal.jstr "test")])
    ∧ (JVal.jobj [("success", JVal.jbool true),
        ("result", JVal.jstr "test")]).lookup "result" = some (JVal.jstr "test") := by
  refine ⟨?_, by decide, by decide⟩
  intro hpre hh ht hcall hne
  rw [execute_tool_append_skip call tool_name input pre _ hpre,
    execute_tool_head_match call tool_name input sname si post hh ht, hcall]
  constructor
  · intro hparse
    simp [hne, hparse]
  · intro hparse
    simp [hne, hparse]

/-- Witness for C4 at a concrete session: the backend on tool `"t"` returns
the text `{"success": true, "result": "test"}` and `execute_tool` returns
the parsed structure, whose `result` field is `"test"`. -/
theorem invoke_parses_or_wraps_payload_witness :
    execute_tool
        (fun _ _ _ => CallOutcome.returns ["\x7b\"success\": true, \"result\": \"test\"\x7d"])
        "t" JVal.jnull
        [("s1", { tools := [{ name := "t", description := "d", inputSchema := JVal.jnull }],
                  healthy := true, last_check := 0 })]
      = JVal.jobj [("success", JVal.jbool true), ("result", JVal.jstr "test")] := by
  exact ((invoke_parses_or_wraps_payload
      (fun _ _ _ => CallOutcome.returns ["\x7b\"success\": true, \"result\": \"test\"\x7d"])
      "t" JVal.jnull [] []
      "s1" { tools := [{ name := "t", description := "d", inputSchema := JVal.jnull }],
             healthy := true, last_check := 0 }
      ["\x7b\"success\": true, \"result\": \"test\"\x7d"]
      (JVal.jobj [("success", JVal.jbool true), ("result", JVal.jstr "test")])).1
    (by simp) rfl (by decide) rfl rfl).1 (by decide)

/-- With an empty tool catalog, `_execute_chat` appends the user turn, makes
no model call, and returns the fixed diagnostic text. -/
theorem exec_chat_no_tools (model : List Turn → Option (List ToolSchema) → ModelResult)
    (call : String → String → JVal → CallOutcome) (sessions : SessionRegistry)
    (user_message : String) (history : List Turn)
    (htools : get_all_tools sessions = []) :
    exec_chat model call sessions user_message history
      = { result := .ok "❌ No MCP tools currently available. Please check server status."
          history := history ++ [{ role := "user", content := .text user_message }]
          model_calls := [] } := by
  simp [exec_chat, htools]

/-- With a non-empty tool catalog, the first `messages.create` call of
`_execute_chat` receives the history extended with the new user turn,
together with the aggregated catalog. -/
theorem exec_chat_first_model_call (model : List Turn → Option (List ToolSchema) → ModelResult)
    (call : String → String → JVal → CallOutcome) (sessions : SessionRegistry)
    (user_message : String) (history : List Turn)
    (htools : (get_all_tools sessions).isEmpty = false) :
    ∃ rest, (exec_chat model call sessions user_message history).model_calls
      = (history ++ [{ role := "user", content := .text user_message }],
         some (get_all_tools sessions)) :: rest := by
  simp only [exec_chat]
  rw [if_neg (by simp [htools])]
  split
  · exact ⟨_, rfl⟩
  · exact ⟨_, rfl⟩
  · exact ⟨_, rfl⟩
  · split
    · split
      · exact ⟨_, rfl⟩
      · exact ⟨_, rfl⟩
      · exact ⟨_, rfl⟩
      · exact ⟨_, rfl⟩
    · exact ⟨_, rfl⟩

/-- When every model call raises a timeout, `_execute_chat` makes exactly
one model call and lets the timeout escape, with the user turn kept in the
history. -/
theorem exec_chat_all_timeout (model : List Turn → Option (List ToolSchema) → ModelResult)
    (call : String → String → JVal → CallOutcome) (sessions : SessionRegistry)
    (user_message : String) (history : List Turn)
    (hmodel : ∀ h ts, model h ts = ModelResult.timeoutExc)
    (htools : (get_all_tools sessions).isEmpty = false) :
    exec_chat model call sessions user_message history
      = { result := .error .timeout
          history := history ++ [{ role := "user", content := .text user_message }]
          model_calls := [(history ++ [{ role := "user", content := .text user_message }],
                           some (get_all_tools sessions))] } := by
  simp [exec_chat, htools, hmodel]

/-- When every model call raises a rate limit, `_execute_chat` makes exactly
one model call and lets the rate limit escape. -/
theorem exec_chat_all_ratelimit (model : List Turn → Option (List ToolSchema) → ModelResult)
    (call : String → String → JVal → CallOutcome) (sessions : SessionRegistry)
    (user_message : String) (history : List Turn)
    (hmodel : ∀ h ts, model h ts = ModelResult.rateLimitExc)
    (htools : (get_all_tools sessions).isEmpty = false) :
    exec_chat model call sessions user_message history
      = { result := .error .rateLimit
          history := history ++ [{ role := "user", content := .text user_message }]
          model_calls := [(history ++ [{ role := "user", content := .text user_message }],
                           some (get_all_tools sessions))] } := by
  simp [exec_chat, htools, hmodel]

/-- When every model call raises an unclassified exception, `_execute_chat`
makes exactly one model call and lets it escape. -/
theorem exec_chat_all_other (model : List Turn → Option (List ToolSchema) → ModelResult)
    (call : String → String → JVal → CallOutcome) (sessions : SessionRegistry)
    (user_message : String) (history : List Turn) (ty msg : String)
    (hmodel : ∀ h ts, model h ts = ModelResult.otherExc ty msg)
    (htools : (get_all_tools sessions).isEmpty = false) :
    exec_chat model call sessions user_message history
      = { result := .error (.other ty msg)
          history := history ++ [{ role := "user", content := .text user_message }]
          model_calls := [(history ++ [{ role := "user", content := .text user_message }],
                           some (get_all_tools sessions))] } := by
  simp [exec_chat, htools, hmodel]

/-- One-step unfolding of the retry loop when `_execute_chat` returns
normally: a success metric is finalized and the response returned. -/
theorem chat_attempts_step_ok (model : List Turn → Option (List ToolSchema) → ModelResult)
    (call : String → String → JVal → CallOutcome) (sessions : SessionRegistry)
    (user_message request_id : String) (start_time : Nat) (clock : Nat → Nat)
    (max_retries attempt remaining : Nat) (history : List Turn) (resp : String)
    (he : (exec_chat model call sessions user_message history).result = .ok resp) :
    chat_attempts model call sessions user_message request_id start_time clock
        max_retries attempt (remaining + 1) history
      = { response := some resp
          history := (exec_chat model call sessions user_message history).history
          metrics_added := [{ request_id := request_id, start_time := start_time,
                              end_time := some (clock attempt), success := true }]
          sleeps := []
          model_calls := (exec_chat model call sessions user_message history).model_calls } := by
  simp only [chat_attempts, he]

/-- One-step unfolding of the retry loop when `_execute_chat` raises an
unclassified exception: no retry, an error metric, the error-prefixed
text. -/
theorem chat_attempts_step_other (model : List Turn → Option (List ToolSchema) → ModelResult)
    (call : String → String → JVal → CallOutcome) (sessions : SessionRegistry)
    (user_message request_id : String) (start_time : Nat) (clock : Nat → Nat)
    (max_retries attempt remaining : Nat) (history : List Turn) (ty msg : String)
    (he : (exec_chat model call sessions user_message history).result = .error (.other ty msg)) :
    chat_attempts model call sessions user_message request_id start_time clock
        max_retries attempt (remaining + 1) history
      = { response := some ("❌ Error: " ++ msg)
          history := (exec_chat model call sessions user_message history).history
          metrics_added := [{ request_id := request_id, start_time := start_time,
                              end_time := some (clock attempt), success := false,
                              error_type := some ty }]
          sleeps := []
          model_calls := (exec_chat model call sessions user_message history).model_calls } := by
  simp only [chat_attempts, he]

/-- One-step unfolding of the retry loop when `_execute_chat` times out on
the last attempt (`attempt == max_retries - 1`). -/
theorem chat_attempts_last_timeout (model : List Turn → Option (List ToolSchema) → ModelResult)
    (call : String → String → JVal → CallOutcome) (sessions : SessionRegistry)
    (user_message request_id : String) (start_time : Nat) (clock : Nat → Nat)
    (max_retries attempt : Nat) (history : List Turn)
    (he : (exec_chat model call sessions user_message history).result = .error .timeout) :
    chat_attempts model call sessions user_message request_id start_time clock
        max_retries attempt 1 history
      = { response := some ("❌ Request timed out after " ++ toString max_retries ++ " attempts")
          history := (exec_chat model call sessions user_message history).history
          metrics_added := [{ request_id := request_id, start_time := start_time,
                              end_time := some (clock attempt), success := false,
                              error_type := some "timeout" }]
          sleeps := []
          model_calls := (exec_chat model call sessions user_message history).model_calls } := by
  simp only [chat_attempts, he]
  simp

/-- One-step unfolding of the retry loop when `_execute_chat` times out on a
non-final attempt: sleep `2^attempt` and retry. -/
theorem chat_attempts_step_timeout (model : List Turn → Option (List ToolSchema) → ModelResult)
    (call : String → String → JVal → CallOutcome) (sessions : SessionRegistry)
    (user_message request_id : String) (start_time : Nat) (clock : Nat → Nat)
    (max_retries attempt remaining : Nat) (history : List Turn)
    (he : (exec_chat model call sessions user_message history).result = .error .timeout)
    (hne : remaining ≠ 0) :
    chat_attempts model call sessions user_message request_id start_time clock
        max_retries attempt (remaining + 1) history
      = { response := (chat_attempts model call sessions user_message request_id start_time
            clock max_retries (attempt + 1) remaining
            (exec_chat model call sessions user_message history).history).response
          history := (chat_attempts model call sessions user_message request_id start_time
            clock max_retries (attempt + 1) remaining
            (exec_chat model call sessions user_message history).history).history
          metrics_added := (chat_attempts model call sessions user_message request_id start_time
            clock max_retries (attempt + 1) remaining
            (exec_chat model call sessions user_message history).history).metrics_added
          sleeps := 2 ^ attempt :: (chat_attempts model call sessions user_message request_id
            start_time clock max_retries (attempt + 1) remaining
            (exec_chat model call sessions user_message history).history).sleeps
          model_calls := (exec_chat model call sessions user_message history).model_calls
            ++ (chat_attempts model call sessions user_message request_id start_time clock
              max_retries (attempt + 1) remaining
              (exec_chat model call sessions user_message history).history).model_calls } := by
  simp only [chat_attempts, he]
  rw [if_neg hne]

/-- One-step unfolding of the retry loop when `_execute_chat` rate-limits on
the last attempt. -/
theorem chat_attempts_last_ratelimit (model : List Turn → Option (List ToolSchema) → ModelResult)
    (call : String → String → JVal → CallOutcome) (sessions : SessionRegistry)
    (user_message request_id : String) (start_time : Nat) (clock : Nat → Nat)
    (max_retries attempt : Nat) (history : List Turn)
    (he : (exec_chat model call sessions user_message history).result = .error .rateLimit) :
    chat_attempts model call sessions user_message request_id start_time clock
        max_retries attempt 1 history
      = { response := some "❌ Rate limit exceeded. Please try again later."
          history := (exec_chat model call sessions user_message history).history
          metrics_added := [{ request_id := request_id, start_time := start_time,
                              end_time := some (clock attempt), success := false,
                              error_type := some "rate_limit" }]
          sleeps := []
          model_calls := (exec_chat model call sessions user_message history).model_calls } := by
  simp only [chat_attempts, he]
  simp

/-- One-step unfolding of the retry loop when `_execute_chat` rate-limits on
a non-final attempt: sleep `5 * (attempt + 1)` and retry. -/
theorem chat_attempts_step_ratelimit (model : List Turn → Option (List ToolSchema) → ModelResult)
    (call : String → String → JVal → CallOutcome) (sessions : SessionRegistry)
    (user_message request_id : String) (start_time : Nat) (clock : Nat → Nat)
    (max_retries attempt remaining : Nat) (history : List Turn)
    (he : (exec_chat model call sessions user_message history).result = .error .rateLimit)
    (hne : remaining ≠ 0) :
    chat_attempts model call sessions user_message request_id start_time clock
        max_retries attempt (remaining + 1) history
      = { response := (chat_attempts model call sessions user_message request_id start_time
            clock max_retries (attempt + 1) remaining
            (exec_chat model call sessions user_message history).history).response
          history := (chat_attempts model call sessions user_message request_id start_time
            clock max_retries (attempt + 1) remaining
            (exec_chat model call sessions user_message history).history).history
          metrics_added := (chat_attempts model call sessions user_message request_id start_time
            clock max_retries (attempt + 1) remaining
            (exec_chat model call sessions user_message history).history).metrics_added
          sleeps := 5 * (attempt + 1) :: (chat_attempts model call sessions user_message
            request_id start_time clock max_retries (attempt + 1) remaining
            (exec_chat model call sessions user_message history).history).sleeps
          model_calls := (exec_chat model call sessions user_message history).model_calls
            ++ (chat_attempts model call sessions user_message request_id start_time clock
              max_retries (attempt + 1) remaining
              (exec_chat model call sessions user_message history).history).model_calls } := by
  simp only [chat_attempts, he]
  rw [if_neg hne]

/-- Under a model oracle that always times out and a non-empty catalog, the
retry loop entered at iteration `attempt` with `r + 1` iterations left makes
one model call per iteration, sleeps `2^i` after every non-final iteration
`i`, appends exactly one "timeout" metric finalized at the last iteration,
and returns the exhaustion text. -/
theorem chat_attempts_all_timeout (model : List Turn → Option (List ToolSchema) → ModelResult)
    (call : String → String → JVal → CallOutcome) (sessions : SessionRegistry)
    (user_message request_id : String) (start_time : Nat) (clock : Nat → Nat)
    (max_retries : Nat)
    (hmodel : ∀ h ts, model h ts = ModelResult.timeoutExc)
    (htools : (get_all_tools sessions).isEmpty = false) :
    ∀ r attempt history,
      (chat_attempts model call sessions user_message request_id start_time clock
          max_retries attempt (r + 1) history).response
        = some ("❌ Request timed out after " ++ toString max_retries ++ " attempts")
      ∧ (chat_attempts model call sessions user_message request_id start_time clock
          max_retries attempt (r + 1) history).model_calls.length = r + 1
      ∧ (chat_attempts model call sessions user_message request_id start_time clock
          max_retries attempt (r + 1) history).sleeps
        = (List.range r).map (fun i => 2 ^ (attempt + i))
      ∧ (chat_attempts model call sessions user_message request_id start_time clock
          max_retries attempt (r + 1) history).metrics_added
        = [{ request_id := request_id, start_time := start_time,
             end_time := some (clock (attempt + r)), success := false,
             error_type := some "timeout" }] := by
  intro r
  induction r with
  | zero =>
    intro attempt history
    have he : (exec_chat model call sessions user_message history).result = .error .timeout := by
      rw [exec_chat_all_timeout model call sessions user_message history hmodel htools]
    rw [chat_attempts_last_timeout model call sessions user_message request_id start_time
      clock max_retries attempt history he]
    rw [exec_chat_all_timeout model call sessions user_message history hmodel htools]
    simp
  | succ s ih =>
    intro attempt history
    have he : (exec_chat model call sessions user_message history).result = .error .timeout := by
      rw [exec_chat_all_timeout model call sessions user_message history hmodel htools]
    simp only [chat_attempts_step_timeout model call sessions user_message request_id
      start_time clock max_retries attempt (s + 1) history he (Nat.succ_ne_zero s),
      exec_chat_all_timeout model call sessions user_message history hmodel htools]
    obtain ⟨ih1, ih2, ih3, ih4⟩ := ih (attempt + 1)
      (history ++ [{ role := "user", content := .text user_message }])
    refine ⟨ih1, ?_, ?_, ?_⟩
    · simp only [List.length_append, List.length_cons, List.length_nil, ih2]
      omega
    · simp only [ih3]
      rw [List.range_succ_eq_map]
      simp only [List.map_cons, List.map_map, Nat.add_zero]
      congr 1
      apply List.map_congr_left
      intro i _
      simp only [Function.comp_apply]
      congr 1
      omega
    · have hc : attempt + 1 + s = attempt + (s + 1) := by omega
      rw [hc] at ih4
      exact ih4

/-- Under a model oracle that always rate-limits and a non-empty catalog,
the retry loop sleeps `5 * (i + 1)` after every non-final iteration `i`,
appends exactly one "rate_limit" metric, and returns the rate-limit text. -/
theorem chat_attempts_all_ratelimit (model : List Turn → Option (List ToolSchema) → ModelResult)
    (call : String → String → JVal → CallOutcome) (sessions : SessionRegistry)
    (user_message request_id : String) (start_time : Nat) (clock : Nat → Nat)
    (max_retries : Nat)
    (hmodel : ∀ h ts, model h ts = ModelResult.rateLimitExc)
    (htools : (get_all_tools sessions).isEmpty = false) :
    ∀ r attempt history,
      (chat_attempts model call sessions user_message request_id start_time clock
          max_retries attempt (r + 1) history).response
        = some "❌ Rate limit exceeded. Please try again later."
      ∧ (chat_attempts model call sessions user_message request_id start_time clock
          max_retries attempt (r + 1) history).model_calls.length = r + 1
      ∧ (chat_attempts model call sessions user_message request_id start_time clock
          max_retries attempt (r + 1) history).sleeps
        = (List.range r).map (fun i => 5 * ((attempt + i) + 1))
      ∧ (chat_attempts model call sessions user_message request_id start_time clock
          max_retries attempt (r + 1) history).metrics_added
        = [{ request_id := request_id, start_time := start_time,
             end_time := some (clock (attempt + r)), success := false,
             error_type := some "rate_limit" }] := by
  intro r
  induction r with
  | zero =>
    intro attempt history
    have he : (exec_chat model call sessions user_message history).result = .error .rateLimit := by
      rw [exec_chat_all_ratelimit model call sessions user_message history hmodel htools]
    rw [chat_attempts_last_ratelimit model call sessions user_message request_id start_time
      clock max_retries attempt history he]
    rw [exec_chat_all_ratelimit model call sessions user_message history hmodel htools]
    simp
  | succ s ih =>
    intro attempt history
    have he : (exec_chat model call sessions user_message history).result = .error .rateLimit := by
      rw [exec_chat_all_ratelimit model call sessions user_message history hmodel htools]
    simp only [chat_attempts_step_ratelimit model call sessions user_message request_id
      start_time clock max_retries attempt (s + 1) history he (Nat.succ_ne_zero s),
      exec_chat_all_ratelimit model call sessions user_message history hmodel htools]
    obtain ⟨ih1, ih2, ih3, ih4⟩ := ih (attempt + 1)
      (history ++ [{ role := "user", content := .text user_message }])
    refine ⟨ih1, ?_, ?_, ?_⟩
    · simp only [List.length_append, List.length_cons, List.length_nil, ih2]
      omega
    · simp only [ih3]
      rw [List.range_succ_eq_map]
      simp only [List.map_cons, List.map_map, Nat.add_zero]
      congr 1
      apply List.map_congr_left
      intro i _
      simp only [Function.comp_apply]
      congr 1
      omega
    · have hc : attempt + 1 + s = attempt + (s + 1) := by omega
      rw [hc] at ih4
      exact ih4

/-- Whatever the model and backend oracles do, one entered retry-loop pass
(at least one iteration available) appends exactly one metric, carrying the
request's id and start time and a finalized end time. -/
theorem chat_attempts_single_metric (model : List Turn → Option (List ToolSchema) → ModelResult)
    (call : String → String → JVal → CallOutcome) (sessions : SessionRegistry)
    (user_message request_id : String) (start_time : Nat) (clock : Nat → Nat)
    (max_retries : Nat) :
    ∀ r attempt history,
      (chat_attempts model call sessions user_message request_id start_time clock
          max_retries attempt (r + 1) history).metrics_added.length = 1
      ∧ ∀ m ∈ (chat_attempts model call sessions user_message request_id start_time clock
          max_retries attempt (r + 1) history).metrics_added,
          m.request_id = request_id ∧ m.start_time = start_time ∧ m.end_time ≠ none := by
  intro r
  induction r with
  | zero =>
    intro attempt history
    cases he : (exec_chat model call sessions user_message history).result with
    | ok t =>
      rw [chat_attempts_step_ok model call sessions user_message request_id start_time clock
        max_retries attempt 0 history t he]
      simp
    | error exc =>
      cases exc with
      | timeout =>
        rw [chat_attempts_last_timeout model call sessions user_message request_id start_time
          clock max_retries attempt history he]
        simp
      | rateLimit =>
        rw [chat_attempts_last_ratelimit model call sessions user_message request_id start_time
          clock max_retries attempt history he]
        simp
      | other ty msg =>
        rw [chat_attempts_step_other model call sessions user_message request_id start_time
          clock max_retries attempt 0 history ty msg he]
        simp
  | succ s ih =>
    intro attempt history
    cases he : (exec_chat model call sessions user_message history).result with
    | ok t =>
      rw [chat_attempts_step_ok model call sessions user_message request_id start_time clock
        max_retries attempt (s + 1) history t he]
      simp
    | error exc =>
      cases exc with
      | timeout =>
        rw [chat_attempts_step_timeout model call sessions user_message request_id start_time
          clock max_retries attempt (s + 1) history he (Nat.succ_ne_zero s)]
        simpa using ih (attempt + 1) (exec_chat model call sessions user_message history).history
      | rateLimit =>
        rw [chat_attempts_step_ratelimit model call sessions user_message request_id start_time
          clock max_retries attempt (s + 1) history he (Nat.succ_ne_zero s)]
        simpa using ih (attempt + 1) (exec_chat model call sessions user_message history).history
      | other ty msg =>
        rw [chat_attempts_step_other model call sessions user_message request_id start_time
          clock max_retries attempt (s + 1) history ty msg he]
        simp

/-- Claim C5, amended for `max_retries ≥ 1` (with `max_retries = 0` the
`for attempt in range(max_retries)` body never runs, so Python falls off
the function and returns `None`, not a text result — see the
counterexample): under a model oracle that times out on every call, the
loop makes exactly `max_retries` model calls, sleeps the exponential
sequence `1, 2, 4, …` (`2^i` after attempt `i`) between attempts, and
returns the timeout-exhaustion text, no exception escaping (the embedded
loop is a total function into a returned value).  Under an
always-rate-limited oracle the sleeps are the linear sequence
`5 * (i + 1)` on the larger base 5.  Any other failure is not retried: one
model call, no sleep, the error-prefixed text at once. -/
theorem chat_retry_backoff_policy
    (model1 model2 model3 : List Turn → Option (List ToolSchema) → ModelResult)
    (call : String → String → JVal → CallOutcome) (sessions : SessionRegistry)
    (user_message request_id : String) (start_time : Nat) (clock : Nat → Nat)
    (history : List Turn) (max_retries : Nat) (ty msg : String) :
    ((∀ h ts, model1 h ts = ModelResult.timeoutExc) →
      (get_all_tools sessions).isEmpty = false → 1 ≤ max_retries →
      (chat_with_claude model1 call sessions user_message request_id start_time clock
          history max_retries).response
        = some ("❌ Request timed out after " ++ toString max_retries ++ " attempts")
      ∧ (chat_with_claude model1 call sessions user_message request_id start_time clock
          history max_retries).model_calls.length = max_retries
      ∧ (chat_with_claude model1 call sessions user_message request_id start_time clock
          history max_retries).sleeps
        = (List.range (max_retries - 1)).map (fun i => 2 ^ i))
    ∧ ((∀ h ts, model2 h ts = ModelResult.rateLimitExc) →
      (get_all_tools sessions).isEmpty = false → 1 ≤ max_retries →
      (chat_with_claude model2 call sessions user_message request_id start_time clock
          history max_retries).response
        = some "❌ Rate limit exceeded. Please try again later."
      ∧ (chat_with_claude model2 call sessions user_message request_id start_time clock
          history max_retries).sleeps
        = (List.range (max_retries - 1)).map (fun i => 5 * (i + 1)))
    ∧ ((∀ h ts, model3 h ts = ModelResult.otherExc ty msg) →
      (get_all_tools sessions).isEmpty = false → 1 ≤ max_retries →
      (chat_with_claude model3 call sessions user_message request_id start_time clock
          history max_retries).response = some ("❌ Error: " ++ msg)
      ∧ (chat_with_claude model3 call sessions user_message request_id start_time clock
          history max_retries).model_calls.length = 1
      ∧ (chat_with_claude model3 call sessions user_message request_id start_time clock
          history max_retries).sleeps = []) := by
  refine ⟨?_, ?_, ?_⟩
  · intro hmodel htools hmr
    obtain ⟨r, rfl⟩ : ∃ r, max_retries = r + 1 := ⟨max_retries - 1, by omega⟩
    obtain ⟨h1, h2, h3, _⟩ := chat_attempts_all_timeout model1 call sessions user_message
      request_id start_time clock (r + 1) hmodel htools r 0 history
    refine ⟨h1, h2, ?_⟩
    simp only [chat_with_claude, h3, Nat.zero_add, Nat.add_sub_cancel]
  · intro hmodel htools hmr
    obtain ⟨r, rfl⟩ : ∃ r, max_retries = r + 1 := ⟨max_retries - 1, by omega⟩
    obtain ⟨h1, _, h3, _⟩ := chat_attempts_all_ratelimit model2 call sessions user_message
      request_id start_time clock (r + 1) hmodel htools r 0 history
    refine ⟨h1, ?_⟩
    simp only [chat_with_claude, h3, Nat.zero_add, Nat.add_sub_cancel]
  · intro hmodel htools hmr
    obtain ⟨r, rfl⟩ : ∃ r, max_retries = r + 1 := ⟨max_retries - 1, by omega⟩
    have he : (exec_chat model3 call sessions user_message history).result
        = .error (.other ty msg) := by
      rw [exec_chat_all_other model3 call sessions user_message history ty msg hmodel htools]
    simp only [chat_with_claude]
    rw [chat_attempts_step_other model3 call sessions user_message request_id start_time
      clock (r + 1) 0 r history ty msg he,
      exec_chat_all_other model3 call sessions user_message history ty msg hmodel htools]
    exact ⟨rfl, rfl, rfl⟩

/-- Claim C5 counterexample: a concrete invocation with `max_retries = 0`,
a healthy session advertising a tool, and a model oracle that always times
out: the loop body never runs and the call returns `None` — not a text
result containing the timeout-exhaustion marker, and zero attempts rather
than a retried-then-reported exhaustion. -/
theorem chat_zero_retries_returns_none :
    (chat_with_claude (fun _ _ => ModelResult.timeoutExc) (fun _ _ _ => CallOutcome.raises "x")
        [("s1", { tools := [{ name := "t", description := "d", inputSchema := JVal.jnull }],
                  healthy := true, last_check := 0 })]
        "hi" "req_a" 0 (fun _ => 1) [] 0).response = none := rfl

/-- Witness for C5 at `max_retries = 2`: two model calls, one sleep of
`2^0 = 1`, and the exhaustion text. -/
theorem chat_retry_backoff_policy_witness :
    (chat_with_claude (fun _ _ => ModelResult.timeoutExc) (fun _ _ _ => CallOutcome.raises "x")
        [("s1", { tools := [{ name := "t", description := "d", inputSchema := JVal.jnull }],
                  healthy := true, last_check := 0 })]
        "hi" "req_b" 0 (fun _ => 1) [] 2).response
      = some ("❌ Request timed out after " ++ toString 2 ++ " attempts")
    ∧ (chat_with_claude (fun _ _ => ModelResult.timeoutExc) (fun _ _ _ => CallOutcome.raises "x")
        [("s1", { tools := [{ name := "t", description := "d", inputSchema := JVal.jnull }],
                  healthy := true, last_check := 0 })]
        "hi" "req_b" 0 (fun _ => 1) [] 2).model_calls.length = 2
    ∧ (chat_with_claude (fun _ _ => ModelResult.timeoutExc) (fun _ _ _ => CallOutcome.raises "x")
        [("s1", { tools := [{ name := "t", description := "d", inputSchema := JVal.jnull }],
                  healthy := true, last_check := 0 })]
        "hi" "req_b" 0 (fun _ => 1) [] 2).sleeps = [1] := by
  obtain ⟨h1, h2, h3⟩ := (chat_retry_backoff_policy
    (fun _ _ => ModelResult.timeoutExc) (fun _ _ => ModelResult.timeoutExc)
    (fun _ _ => ModelResult.timeoutExc) (fun _ _ _ => CallOutcome.raises "x")
    [("s1", { tools := [{ name := "t", description := "d", inputSchema := JVal.jnull }],
              healthy := true, last_check := 0 })]
    "hi" "req_b" 0 (fun _ => 1) [] 2 "E" "m").1 (fun _ _ => rfl) rfl (by omega)
  exact ⟨h1, h2, by simpa using h3⟩

/-- Claim C6, amended for invocations with `max_retries ≥ 1` (with
`max_retries = 0` the loop body never runs and no metric at all is
appended — see the counterexample): when the aggregated tool catalog is
empty the exchange short-circuits with no model call, returns the fixed
diagnostic text, and records the request as a non-exception outcome — one
success metric, no error type, end time finalized; and every entered
invocation, on every exit path and under any oracles, appends exactly one
metric carrying the request's id and start time with a finalized end
time. -/
theorem send_no_backend_and_single_metric
    (model : List Turn → Option (List ToolSchema) → ModelResult)
    (call : String → String → JVal → CallOutcome) (sessions : SessionRegistry)
    (user_message request_id : String) (start_time : Nat) (clock : Nat → Nat)
    (history : List Turn) (max_retries : Nat) :
    (get_all_tools sessions = [] → 1 ≤ max_retries →
      chat_with_claude model call sessions user_message request_id start_time clock
          history max_retries
        = { response := some "❌ No MCP tools currently available. Please check server status."
            history := history ++ [{ role := "user", content := .text user_message }]
            metrics_added := [{ request_id := request_id, start_time := start_time,
                                end_time := some (clock 0), success := true }]
            sleeps := []
            model_calls := [] })
    ∧ (1 ≤ max_retries →
        (chat_with_claude model call sessions user_message request_id start_time clock
            history max_retries).metrics_added.length = 1
        ∧ ∀ m ∈ (chat_with_claude model call sessions user_message request_id start_time
            clock history max_retries).metrics_added,
            m.request_id = request_id ∧ m.start_time = start_time ∧ m.end_time ≠ none) := by
  constructor
  · intro htools hmr
    obtain ⟨r, rfl⟩ : ∃ r, max_retries = r + 1 := ⟨max_retries - 1, by omega⟩
    have he : (exec_chat model call sessions user_message history).result
        = .ok "❌ No MCP tools currently available. Please check server status." := by
      rw [exec_chat_no_tools model call sessions user_message history htools]
    simp only [chat_with_claude]
    rw [chat_attempts_step_ok model call sessions user_message request_id start_time clock
      (r + 1) 0 r history _ he,
      exec_chat_no_tools model call sessions user_message history htools]
  · intro hmr
    obtain ⟨r, rfl⟩ : ∃ r, max_retries = r + 1 := ⟨max_retries - 1, by omega⟩
    simp only [chat_with_claude]
    exact chat_attempts_single_metric model call sessions user_message request_id start_time
      clock (r + 1) r 0 history

/-- Claim C6 counterexample: a concrete invocation with `max_retries = 0`
appends no metric at all, refuting "every invocation of send, on every exit
path, appends exactly one RequestMetric". -/
theorem send_zero_retries_appends_no_metric :
    (chat_with_claude (fun _ _ => ModelResult.timeoutExc) (fun _ _ _ => CallOutcome.raises "x")
        [] "hi" "req_c" 0 (fun _ => 1) [] 0).metrics_added = [] := rfl

/-- Witness for C6 at a concrete empty registry and `max_retries = 3`: the
short-circuited send returns the diagnostic text, makes no model call, and
appends exactly one finalized success metric. -/
theorem send_no_backend_and_single_metric_witness :
    chat_with_claude (fun _ _ => ModelResult.timeoutExc) (fun _ _ _ => CallOutcome.raises "x")
        [] "hi" "req_d" 5 (fun _ => 9) [] 3
      = { response := some "❌ No MCP tools currently available. Please check server status."
          history := [{ role := "user", content := .text "hi" }]
          metrics_added := [{ request_id := "req_d", start_time := 5,
                              end_time := some 9, success := true }]
          sleeps := []
          model_calls := [] } := by
  have h := (send_no_backend_and_single_metric (fun _ _ => ModelResult.timeoutExc)
    (fun _ _ _ => CallOutcome.raises "x") [] "hi" "req_d" 5 (fun _ => 9) [] 3).1 rfl (by omega)
  simpa using h

/-- Claim C10: `_execute_chat` appends the user turn to the conversation
history before checking tool availability, so the empty-catalog
short-circuit still grows the history by that user turn while making no
model call; and a subsequent send over a working catalog passes the grown
history — the earlier user turn included — to the model as its first
`messages.create` call. -/
theorem execute_chat_appends_user_before_tool_check
    (model : List Turn → Option (List ToolSchema) → ModelResult)
    (call : String → String → JVal → CallOutcome) (sessions sessions2 : SessionRegistry)
    (user1 user2 : String) (history : List Turn) :
    (get_all_tools sessions = [] →
      exec_chat model call sessions user1 history
        = { result := .ok "❌ No MCP tools currently available. Please check server status."
            history := history ++ [{ role := "user", content := .text user1 }]
            model_calls := [] })
    ∧ (get_all_tools sessions = [] → (get_all_tools sessions2).isEmpty = false →
        ∃ rest, (exec_chat model call sessions2 user2
            (exec_chat model call sessions user1 history).history).model_calls
          = (history ++ [{ role := "user", content := .text user1 },
                         { role := "user", content := .text user2 }],
             some (get_all_tools sessions2)) :: rest) := by
  constructor
  · exact fun h => exec_chat_no_tools model call sessions user1 history h
  · intro h1 h2
    rw [exec_chat_no_tools model call sessions user1 history h1]
    obtain ⟨rest, hr⟩ := exec_chat_first_model_call model call sessions2 user2
      (history ++ [{ role := "user", content := .text user1 }]) h2
    refine ⟨rest, ?_⟩
    simpa [List.append_assoc] using hr

/-- A model oracle answering every call with a plain one-block text
response (used by the concrete C10 witness). -/
def plainRespModel : List Turn → Option (List ToolSchema) → ModelResult :=
  fun _ _ => ModelResult.resp { stop_reason := "end_turn", content := [RespBlock.textBlock "ok"] }

/-- The one-session registry used by the concrete C10 witness. -/
def oneSessionRegistry : SessionRegistry :=
  [("s1", { tools := [{ name := "t", description := "d", inputSchema := JVal.jnull }],
            healthy := true, last_check := 0 })]

/-- Witness for C10 at concrete data: an empty registry send grows the
history by the user turn, and a follow-up send over one healthy session
passes both user turns to the model. -/
theorem execute_chat_appends_user_before_tool_check_witness :
    exec_chat plainRespModel (fun _ _ _ => CallOutcome.raises "x") [] "first" []
      = { result := .ok "❌ No MCP tools currently available. Please check server status."
          history := [{ role := "user", content := .text "first" }]
          model_calls := [] }
    ∧ ∃ rest, (exec_chat plainRespModel (fun _ _ _ => CallOutcome.raises "x")
        oneSessionRegistry "second"
        (exec_chat plainRespModel (fun _ _ _ => CallOutcome.raises "x")
          [] "first" []).history).model_calls
      = ([{ role := "user", content := .text "first" },
          { role := "user", content := .text "second" }],
         some (get_all_tools oneSessionRegistry)) :: rest := by
  have h := execute_chat_appends_user_before_tool_check plainRespModel
    (fun _ _ _ => CallOutcome.raises "x") [] oneSessionRegistry "first" "second" []
  exact ⟨by simpa using h.1 rfl, by simpa using h.2 rfl rfl⟩
